import Mathlib

/-!
# Verification of the asm2vec training engine (`asm2vec/internal/training.py`)

This file gives a shallow embedding of the training engine of the asm2vec
repository and settles the frozen claims about it.

Modelling conventions:

* Vectors (`numpy` 1-d arrays of floats) are modelled as `List ℚ`; exact
  rational arithmetic stands in for IEEE-754 doubles.  Elementwise numpy
  operations (`+`, `-`, scalar `*`, `np.dot`, `np.average(·, axis=0)`) are
  modelled by the corresponding list operations; broadcasting of
  `int - array` is modelled by `scalar_sub_vec`.
* The sigmoid `_sigmoid` is transcendental, so every definition that scores
  targets is parameterised by `sig : ℚ → ℚ`, the model of `_sigmoid`.  The
  real sigmoid satisfies `0 < sig x < 1` for every finite input and
  `sig 0 = 1/2`; theorems assume no more than these facts (or nothing).
* `VectorizedToken`, `VectorizedFunction`, `Instruction` and the negative
  sampler live in repository modules that are not under `src/`
  (`representative.py`, `sampling.py`, `asm.py`); they are modelled from the
  spec: a token is a record with a name, a frequency and two vectors, token
  identity is by name, and token vectors are live references into the
  vocabulary.  The live-reference semantics is captured by keeping all token
  state in a `Store : String → VectorizedToken` and reading/writing through
  it by name.  The sampler is modelled by an oracle: the list of sampled
  token names consumed at each per-token gradient step.
* Python exceptions are modelled with `Except PyErr`.  Two exceptions are
  actually reachable in this engine: the `TypeError` raised by
  `np.hstack(op.v, …)` (numpy's `hstack` takes a single tuple argument, so a
  second positional argument is rejected), and the `AttributeError` raised
  by `None.val()` when `get_counter` returns `None`.
-/

namespace Asm2Vec

/-- Python exceptions reachable in the training engine. -/
inductive PyErr where
  | typeError
  | attributeError
  deriving Repr, DecidableEq

/-- A numpy 1-d array of floats, modelled with exact rationals. -/
abbrev Vec := List ℚ

/-- Elementwise vector addition (numpy `+` on equal-shape arrays). -/
def vadd (a b : Vec) : Vec := List.zipWith (· + ·) a b

/-- Elementwise vector subtraction (numpy `-` on equal-shape arrays). -/
def vsub (a b : Vec) : Vec := List.zipWith (· - ·) a b

/-- Scalar times vector (numpy scalar `*` array). -/
def smul (c : ℚ) (a : Vec) : Vec := a.map (fun x => c * x)

/-- `np.dot` of two 1-d arrays. -/
def dot (a b : Vec) : ℚ := (List.zipWith (· * ·) a b).sum

/-- Broadcast subtraction `scalar - array` (Python `int - ndarray`). -/
def scalar_sub_vec (c : ℚ) (a : Vec) : Vec := a.map (fun x => c - x)

/-- `np.zeros(n)`. -/
def zero_vec (n : ℕ) : Vec := List.replicate n 0

/-- `np.average(vs, axis=0)` for a list of equal-length vectors: the
elementwise mean.  The empty-list case (numpy would warn and produce `nan`)
is modelled as `[]`; no claim exercises it. -/
def np_average_axis0 (vs : List Vec) : Vec :=
  match vs with
  | [] => []
  | v :: rest => smul (1 / (vs.length : ℚ)) (rest.foldl vadd v)

/-- `np.hstack(tup)`: concatenation of a tuple of 1-d arrays.  This is the
signature numpy actually exposes — a single tuple argument. -/
def np_hstack (tup : List Vec) : Vec := tup.flatten

/-- The call shape `np.hstack(a, b)` used at `training.py:165`: numpy's
`hstack` accepts one positional argument (the tuple), so passing the averaged
operand vector as a second positional argument raises `TypeError`
unconditionally. -/
def np_hstack_two_positional (_ _ : Vec) : Except PyErr Vec :=
  .error .typeError

/-- Modelled from the spec (`representative.py` is not under `src/`): a
vocabulary token record with its name, corpus frequency, embedding vector `v`
and predictive vector `v_pred`; token identity is by name. -/
structure VectorizedToken where
  name : String
  frequency : ℕ
  v : Vec
  v_pred : Vec
  deriving Repr, DecidableEq

/-- Modelled from the spec (`asm.py` is not under `src/`): an instruction is
an opcode name plus an ordered list of operand names. -/
structure Instruction where
  op : String
  args : List String
  deriving Repr, DecidableEq

/-- Modelled from the spec (`representative.py` is not under `src/`): a
function record holding the function's embedding vector and its linearized
instruction sequences (`f.sequential().sequences()`). -/
structure VectorizedFunction where
  v : Vec
  sequences : List (List Instruction)
  deriving Repr, DecidableEq

/-- The live token state: every token name resolves to its current record.
Modelled from the spec: token vectors are shared, mutable, referenced by
name, and the vocabulary is complete (every name appearing in an instruction
resolves).  Mutation is modelled by `store_update`. -/
abbrev Store := String → VectorizedToken

/-- In-place mutation of one token, visible through every live reference. -/
def store_update (st : Store) (name : String)
    (f : VectorizedToken → VectorizedToken) : Store :=
  fun n => if n = name then f (st name) else st n

/-- Hyperparameters (`Asm2VecParams.__init__`, `training.py:14-21`), with the
source's defaults. -/
structure Asm2VecParams where
  d : ℕ := 200
  initial_alpha : ℚ := 1 / 20
  alpha_update_interval : ℕ := 10000
  num_of_rnd_walks : ℕ := 3
  neg_samples : ℕ := 25
  iteration : ℕ := 1
  deriving Repr, DecidableEq

/-- A named monotonic counter (`TrainingContext.Counter`,
`training.py:92-107`). -/
structure Counter where
  name : String
  val : ℕ
  deriving Repr, DecidableEq

/-- `Counter.inc` (`training.py:100-102`): adds one and returns the new
value.  NOTE: the training engine never calls this (claim C2). -/
def Counter.inc (c : Counter) : Counter × ℕ :=
  ({ c with val := c.val + 1 }, c.val + 1)

/-- `Counter.reset` (`training.py:104-107`). -/
def Counter.reset (c : Counter) : Counter × ℕ :=
  ({ c with val := 0 }, c.val)

/-- `TrainingContext.TOKENS_HANDLED_COUNTER` (`training.py:109`). -/
def TOKENS_HANDLED_COUNTER : String := "tokens_handled"

/-- The mutable part of `TrainingContext` (`training.py:111-146`): the
current learning rate, the named-counter dictionary and the estimation flag.
The repository reference and sampler are threaded separately (the total
token count as an explicit argument, the sampler as an oracle). -/
structure TrainingContext where
  alpha : ℚ
  counters : List (String × Counter)
  is_estimating : Bool
  deriving Repr, DecidableEq

/-- Dictionary lookup used by `TrainingContext.get_counter`
(`self._counters.get(name)`, `training.py:140-141`): returns `none` — the
model of Python `None` — when the name was never registered. -/
def lookup_counter : List (String × Counter) → String → Option Counter
  | [], _ => none
  | (k, c) :: rest, n => if k = n then some c else lookup_counter rest n

/-- `TrainingContext.get_counter` (`training.py:140-141`). -/
def get_counter (ctx : TrainingContext) (name : String) : Option Counter :=
  lookup_counter ctx.counters name

/-- `TrainingContext.add_counter` (`training.py:143-146`): registers a fresh
counter under its name. -/
def add_counter (ctx : TrainingContext) (name : String) (initial : ℕ) :
    TrainingContext :=
  { ctx with counters := ctx.counters ++ [(name, ⟨name, initial⟩)] }

/-- The context built by `train` (`training.py:238-240`): fresh context in
full-training mode with the tokens-handled counter registered at 0. -/
def train_ctx (p : Asm2VecParams) : TrainingContext :=
  add_counter ⟨p.initial_alpha, [], false⟩ TOKENS_HANDLED_COUNTER 0

/-- The context built by `estimate` (`training.py:248`): estimation mode, and
no counter is ever registered. -/
def estimate_ctx (p : Asm2VecParams) : TrainingContext :=
  ⟨p.initial_alpha, [], true⟩

/-!
## The sequence window (`SequenceWindow`, `training.py:24-88`)

The cursor `_i` starts at 1; `__next__` raises `StopIteration` as soon as
`_i >= len(seq) - 1` (over the integers; for `len ≥ 0` and cursor `i ≥ 0`
this is exactly `i + 1 ≥ len` over ℕ), otherwise it resolves the
previous/current/next instructions' opcode and operand names and advances
the cursor.  Token resolution goes through the vocabulary by name; since the
store is total (complete vocabulary), a view only needs the names, and every
later read goes through the live store.
-/

/-- The 6-tuple view produced by one `SequenceWindow.__next__`
(`training.py:55-57`), by name; vector state is read through the live
`Store` at use time, which is exactly the live-reference semantics. -/
structure WindowView where
  prevOp : String
  prevArgs : List String
  currOp : String
  currArgs : List String
  nextOp : String
  nextArgs : List String
  deriving Repr, DecidableEq

/-- Fallback instruction for out-of-range `List.getD`; never reached for the
cursor ranges the window produces. -/
def default_ins : Instruction := ⟨"", []⟩

/-- The view at cursor position `i` (`training.py:44-57`). -/
def make_view (seq : List Instruction) (i : ℕ) : WindowView :=
  let p := seq.getD (i - 1) default_ins
  let c := seq.getD i default_ins
  let n := seq.getD (i + 1) default_ins
  ⟨p.op, p.args, c.op, c.args, n.op, n.args⟩

/-- Drains a `SequenceWindow` from cursor `i`, recording each produced view
together with the cursor position it was produced at.  The guard
`i + 1 < seq.length` is `__next__`'s continue condition (`training.py:38`,
negation of `_i >= len(seq) - 1`).  `fuel` is a structural-recursion bound;
`seq.length` steps always suffice because the cursor strictly increases. -/
def window_views_fuel (seq : List Instruction) : ℕ → ℕ → List (ℕ × WindowView)
  | _, 0 => []
  | i, fuel + 1 =>
    if i + 1 < seq.length then
      (i, make_view seq i) :: window_views_fuel seq (i + 1) fuel
    else []

/-- All (cursor, view) pairs a `SequenceWindow` over `seq` produces, starting
from the initial cursor `i` (`__init__` sets it to 1). -/
def window_views (seq : List Instruction) (i : ℕ) : List (ℕ × WindowView) :=
  window_views_fuel seq i seq.length

/-!
## The gradient formulas (`training.py:149-177`)

`_sigmoid` is modelled by an abstract parameter `sig : ℚ → ℚ`; the real
function `e^x / (1 + e^x)` satisfies `0 < sig x < 1` and `sig 0 = 1/2`.
-/

/-- `_identity` (`training.py:154-155`). -/
def identity_ind (cond : Bool) : ℚ := if cond then 1 else 0

/-- `_dot_sigmoid` (`training.py:158-161`): sigmoid of the dot product,
with `_sigmoid` abstracted as `sig`. -/
def dot_sigmoid (sig : ℚ → ℚ) (lhs rhs : Vec) : ℚ := sig (dot lhs rhs)

/-- `_get_inst_repr` (`training.py:164-165`):
`np.hstack(op.v, np.average([tk.v for tk in args], axis=0))`.
The operand average is evaluated first (Python evaluates arguments before the
call), then `np.hstack` is invoked with TWO positional arguments, which
raises `TypeError` — numpy's `hstack` takes a single tuple. -/
def get_inst_repr (op : VectorizedToken) (args : List VectorizedToken) :
    Except PyErr Vec :=
  np_hstack_two_positional op.v (np_average_axis0 (args.map (·.v)))

/-- Modelled from the spec (§4.4): an instruction representation is the
concatenation of the opcode's embedding vector with the elementwise mean of
the operands' embedding vectors. -/
def spec_inst_repr (op : VectorizedToken) (args : List VectorizedToken) :
    Vec :=
  op.v ++ np_average_axis0 (args.map (·.v))

/-- Lines 181–183 of `_train_vectorized`: both `_get_inst_repr` calls raise
`TypeError` (`np.hstack` arity), so control never reaches line 183.  Were it
reached, `delta = np.average((ct_prev, f, ct_next))` would average a tuple
containing the `VectorizedFunction` OBJECT `f` (not `f.v`) with no `axis`
keyword — itself a `TypeError` on the heterogeneous tuple, and even on plain
arrays it would collapse to a scalar rather than an elementwise average. -/
def compute_delta (view : WindowView) (st : Store) : Except PyErr Vec := do
  let _ctPrev ← get_inst_repr (st view.prevOp) (view.prevArgs.map st)
  let _ctNext ← get_inst_repr (st view.nextOp) (view.nextArgs.map st)
  .error .typeError

/-- Modelled from the spec (§4.4): the context delta is the elementwise
average of the previous instruction's representation, the current Function's
embedding vector `f.v`, and the next instruction's representation. -/
def spec_context_delta (view : WindowView) (st : Store) (fv : Vec) : Vec :=
  np_average_axis0
    [spec_inst_repr (st view.prevOp) (view.prevArgs.map st),
     fv,
     spec_inst_repr (st view.nextOp) (view.nextArgs.map st)]

/-- `_get_function_grad` (`training.py:168-173`), exactly as the source
computes it: `neu` is the SCALAR `np.sum` over targets of
`_identity(t == tk) - _dot_sigmoid(tk.v_pred, delta)` — note both the label
test and the score use the CURRENT token, the score reading `tk.v_pred`
rather than `t.v_pred` — and the result is `neu / 3 * tk.v_pred`.  Token
equality is by name (modelled from the spec §3; `VectorizedToken` lives in
`representative.py`, outside `src/`). -/
def get_function_grad (sig : ℚ → ℚ) (samples : List VectorizedToken)
    (current_token : VectorizedToken) (delta : Vec) : Vec :=
  let neu : ℚ :=
    (samples.map (fun t =>
      identity_ind (t.name = current_token.name) -
        dot_sigmoid sig current_token.v_pred delta)).sum
  smul (neu / 3) current_token.v_pred

/-- Modelled from the spec (§4.4 steps 3–4): the function-vector gradient is
the sum over targets of `err(t) × t.v_pred`, where
`err(t) = label(t) - sigmoid(dot(t.v_pred, delta))` and `label(t) = 1` iff
`t` equals the current token by name — each target scored against its own
predictive vector, each term scaling that target's own predictive vector. -/
def spec_function_grad (sig : ℚ → ℚ) (samples : List VectorizedToken)
    (current_token : VectorizedToken) (delta : Vec) : Vec :=
  (samples.map (fun t =>
    smul (identity_ind (t.name = current_token.name) -
        dot_sigmoid sig t.v_pred delta) t.v_pred)).foldr vadd
    (zero_vec delta.length)

/-- `_get_target_grad` (`training.py:176-177`), exactly as the source
computes it: by Python precedence this is
`_identity(t == tk) - (_dot_sigmoid(t.v_pred, delta) * delta)`, i.e. the
scalar label broadcast-minus the vector `score·delta`, NOT
`(label - score) * delta`. -/
def get_target_grad (sig : ℚ → ℚ) (target current_token : VectorizedToken)
    (delta : Vec) : Vec :=
  scalar_sub_vec (identity_ind (target.name = current_token.name))
    (smul (dot_sigmoid sig target.v_pred delta) delta)

/-- Modelled from the spec (§4.4 step 5): the target-vector gradient is the
scalar `err(t) = label(t) - sigmoid(dot(t.v_pred, delta))` times the vector
`delta`. -/
def spec_target_grad (sig : ℚ → ℚ) (target current_token : VectorizedToken)
    (delta : Vec) : Vec :=
  smul (identity_ind (target.name = current_token.name) -
      dot_sigmoid sig target.v_pred delta) delta

/-!
## The gradient step and the training loops (`training.py:180-252`)

The negative sampler (`sampling.py`, outside `src/`) is modelled by an
oracle: `EngineState.oracle` lists, for each per-token gradient step in
order, the names of the `S` tokens the sampler returned.  Each `token_step`
consumes one entry.
-/

/-- The sampler oracle: one list of sampled token names per gradient-step
token. -/
abbrev Oracle := List (List String)

/-- The mutable state threaded through the loops: the live token store, the
training context, and the remaining sampler oracle. -/
structure EngineState where
  store : Store
  ctx : TrainingContext
  oracle : Oracle

/-- The learning rate stored at a recomputation point
(`training.py:196-199`):
`max(1 - counter/(iteration * num_of_tokens + 1), initial_alpha * 0.0001)`. -/
def recomputed_alpha (p : Asm2VecParams) (num_tokens : ℕ) (c : ℕ) : ℚ :=
  max (1 - (c : ℚ) / ((p.iteration : ℚ) * (num_tokens : ℚ) + 1))
    (p.initial_alpha * (1 / 10000))

/-- First-occurrence deduplication, with an accumulator of names already
seen. -/
def dedup_seen (seen : List String) : List String → List String
  | [] => []
  | x :: xs =>
    if x ∈ seen then dedup_seen seen xs else x :: dedup_seen (x :: seen) xs

/-- First-occurrence deduplication of a name list: the key order of a Python
dict built from `(name, value)` pairs. -/
def dedup_first (l : List String) : List String := dedup_seen [] l

/-- The target set of one gradient-step token (`training.py:189-192`): a
dict keyed by name over the sampled tokens, with the current token inserted
at the end if the sampler did not produce it.  Values are live by-name
references into the vocabulary, so the name list determines the targets. -/
def build_targets (sampled : List String) (tk_name : String) : List String :=
  dedup_first sampled ++ (if tk_name ∈ sampled then [] else [tk_name])

/-- One iteration of the `for tk in tokens` loop of `_train_vectorized`
(`training.py:188-207`), given the context delta (whose own computation at
lines 181-183 raises, see `compute_delta`):

1. build the target set from one sampler draw (lines 189-192);
2. `get_counter` then `.val()` — when the counter was never registered the
   lookup yields `None` and `None.val()` raises `AttributeError`
   (lines 194-195); NOTE: the counter is never incremented;
3. when the counter value is a multiple of `alpha_update_interval`
   (`%` on ℕ; Python would raise on a zero interval, never exercised),
   store the recomputed learning rate (lines 195-199);
4. accumulate the function gradient (line 202);
5. unless estimating, update each target's `v_pred` in place through the
   live store (lines 204-207), each target read at its own update time.

`token_step_core` is the iteration after the counter value has been read
(it cannot fail); the `token_step` wrapper below performs the lookup of
step 2. -/
def token_step_core (p : Asm2VecParams) (num_tokens : ℕ) (sig : ℚ → ℚ)
    (delta : Vec) (tk_name : String) (s : EngineState) (cnt : Counter)
    (f_grad : Vec) : EngineState × Vec :=
  let tk := s.store tk_name
  let targets := build_targets (s.oracle.headD []) tk_name
  let ctx' :=
    if cnt.val % p.alpha_update_interval = 0 then
      { s.ctx with alpha := recomputed_alpha p num_tokens cnt.val }
    else s.ctx
  let f_grad' :=
    vadd f_grad (get_function_grad sig (targets.map s.store) tk delta)
  if ctx'.is_estimating then
    (⟨s.store, ctx', s.oracle.tail⟩, f_grad')
  else
    let st' := targets.foldl (fun st n =>
      store_update st n (fun t =>
        { t with
          v_pred := vsub t.v_pred
            (smul ctx'.alpha (get_target_grad sig t tk delta)) }))
      s.store
    (⟨st', ctx', s.oracle.tail⟩, f_grad')

/-- One iteration of the `for tk in tokens` loop, with the counter lookup:
when the counter was never registered the lookup yields `None` and
`None.val()` raises `AttributeError`; otherwise the step runs
`token_step_core` and cannot fail. -/
def token_step (p : Asm2VecParams) (num_tokens : ℕ) (sig : ℚ → ℚ)
    (delta : Vec) (tk_name : String) (s : EngineState) (f_grad : Vec) :
    Except PyErr (EngineState × Vec) :=
  match get_counter s.ctx TOKENS_HANDLED_COUNTER with
  | none => .error .attributeError
  | some cnt => .ok (token_step_core p num_tokens sig delta tk_name s cnt f_grad)

/-- The whole `for tk in tokens` loop (`training.py:188-207`), threading the
state and the accumulated function gradient. -/
def tokens_loop (p : Asm2VecParams) (num_tokens : ℕ) (sig : ℚ → ℚ)
    (delta : Vec) :
    List String → EngineState → Vec → Except PyErr (EngineState × Vec)
  | [], s, g => .ok (s, g)
  | n :: ns, s, g =>
    match token_step p num_tokens sig delta n s g with
    | .error e => .error e
    | .ok pr => tokens_loop p num_tokens sig delta ns pr.1 pr.2

/-- The instruction-gradient application (`training.py:212-224`): split the
accumulated gradient at `d = len(prev_op.v)`; subtract the opcode-sized head
from the previous opcode vector scaled by the CURRENT learning rate
(line 216) but from the next opcode vector scaled by `initial_alpha`
(line 221); subtract the operand-sized tail, divided by the operand count
and scaled by the current rate, from each previous and next operand vector
(the ℚ convention `x / 0 = 0` stands in for numpy's `inf`/`nan` on an
operand-less instruction; no claim exercises that case). -/
def apply_inst_grad (alpha initial_alpha : ℚ) (f_grad : Vec)
    (view : WindowView) (st : Store) : Store :=
  let d := (st view.prevOp).v.length
  let st1 := store_update st view.prevOp (fun t =>
    { t with v := vsub t.v (smul alpha (f_grad.take d)) })
  let prev_args_grad :=
    smul (alpha / (view.prevArgs.length : ℚ)) (f_grad.drop d)
  let st2 := view.prevArgs.foldl (fun s n =>
    store_update s n (fun t => { t with v := vsub t.v prev_args_grad })) st1
  let st3 := store_update st2 view.nextOp (fun t =>
    { t with v := vsub t.v (smul initial_alpha (f_grad.take d)) })
  let next_args_grad :=
    smul (alpha / (view.nextArgs.length : ℚ)) (f_grad.drop d)
  view.nextArgs.foldl (fun s n =>
    store_update s n (fun t => { t with v := vsub t.v next_args_grad })) st3

/-- `_train_vectorized` after the delta computation (`training.py:185-224`):
run the token loop over `[curr_op] + curr_args` with a zero-initialised
function gradient, apply the function gradient to `f.v` (line 210, in both
modes), and unless estimating apply the instruction gradient. -/
def train_vectorized_body (p : Asm2VecParams) (num_tokens : ℕ)
    (sig : ℚ → ℚ) (view : WindowView) (delta : Vec) (s : EngineState)
    (fv : Vec) : Except PyErr (EngineState × Vec) :=
  match tokens_loop p num_tokens sig delta (view.currOp :: view.currArgs) s
      (zero_vec fv.length) with
  | .error e => .error e
  | .ok pr =>
    let fv' := vsub fv (smul pr.1.ctx.alpha pr.2)
    if pr.1.ctx.is_estimating then .ok (pr.1, fv')
    else
      .ok (⟨apply_inst_grad pr.1.ctx.alpha p.initial_alpha pr.2 view
              pr.1.store, pr.1.ctx, pr.1.oracle⟩, fv')

/-- `_train_vectorized` (`training.py:180-224`): compute the context delta
(which raises `TypeError`, see `compute_delta`), then run the body. -/
def train_vectorized (p : Asm2VecParams) (num_tokens : ℕ) (sig : ℚ → ℚ)
    (view : WindowView) (s : EngineState) (fv : Vec) :
    Except PyErr (EngineState × Vec) :=
  match compute_delta view s.store with
  | .error e => .error e
  | .ok delta => train_vectorized_body p num_tokens sig view delta s fv

/-- The `while True: next(wnd); _train_vectorized(...)` loop of
`_train_sequence`, over the views the window produces. -/
def run_windows (p : Asm2VecParams) (num_tokens : ℕ) (sig : ℚ → ℚ) :
    List (ℕ × WindowView) → EngineState → Vec →
      Except PyErr (EngineState × Vec)
  | [], s, fv => .ok (s, fv)
  | (_, view) :: rest, s, fv =>
    match train_vectorized p num_tokens sig view s fv with
    | .error e => .error e
    | .ok pr => run_windows p num_tokens sig rest pr.1 pr.2

/-- `_train_sequence` (`training.py:227-235`): drive a fresh window over the
sequence to `StopIteration`, one gradient step per position. -/
def train_sequence (p : Asm2VecParams) (num_tokens : ℕ) (sig : ℚ → ℚ)
    (seq : List Instruction) (s : EngineState) (fv : Vec) :
    Except PyErr (EngineState × Vec) :=
  run_windows p num_tokens sig (window_views seq 1) s fv

/-- The `for seq in f.sequential().sequences()` loop shared by `train` and
`estimate`. -/
def run_sequences (p : Asm2VecParams) (num_tokens : ℕ) (sig : ℚ → ℚ) :
    List (List Instruction) → EngineState → Vec →
      Except PyErr (EngineState × Vec)
  | [], s, fv => .ok (s, fv)
  | seq :: rest, s, fv =>
    match train_sequence p num_tokens sig seq s fv with
    | .error e => .error e
    | .ok pr => run_sequences p num_tokens sig rest pr.1 pr.2

/-- `estimate` (`training.py:247-252`): build an estimation-mode context —
registering NO counter — iterate only the given function's sequences, and
return the function's final embedding vector. -/
def estimate (f : VectorizedFunction) (num_tokens : ℕ) (p : Asm2VecParams)
    (sig : ℚ → ℚ) (oracle : Oracle) (st : Store) : Except PyErr Vec :=
  match run_sequences p num_tokens sig f.sequences
      ⟨st, estimate_ctx p, oracle⟩ f.v with
  | .error e => .error e
  | .ok pr => .ok pr.2

/-- The `for f in context.repo().funcs()` loop of `train`, also returning
each function's final vector. -/
def run_funcs (p : Asm2VecParams) (num_tokens : ℕ) (sig : ℚ → ℚ) :
    List VectorizedFunction → EngineState →
      Except PyErr (EngineState × List VectorizedFunction)
  | [], s => .ok (s, [])
  | f :: rest, s =>
    match run_sequences p num_tokens sig f.sequences s f.v with
    | .error e => .error e
    | .ok pr =>
      match run_funcs p num_tokens sig rest pr.1 with
      | .error e => .error e
      | .ok pr2 => .ok (pr2.1, { f with v := pr.2 } :: pr2.2)

/-- `train` (`training.py:238-244`): fresh full-mode context with the
tokens-handled counter registered, then every sequence of every function. -/
def train (funcs : List VectorizedFunction) (num_tokens : ℕ)
    (p : Asm2VecParams) (sig : ℚ → ℚ) (oracle : Oracle) (st : Store) :
    Except PyErr (EngineState × List VectorizedFunction) :=
  run_funcs p num_tokens sig funcs ⟨st, train_ctx p, oracle⟩

/-!
## Result projections and a concrete example world

The projections read a component out of a loop result, with an explicit
fallback for the error case, so that statements about both branches need no
existential binders.  The example world is a four-token vocabulary used by
the concrete theorems.
-/

/-- The counter dictionary after a loop, or the fallback on error. -/
def result_counters (r : Except PyErr (EngineState × Vec))
    (fallback : List (String × Counter)) : List (String × Counter) :=
  match r with
  | .error _ => fallback
  | .ok pr => pr.1.ctx.counters

/-- The learning rate after a loop, or the fallback on error. -/
def result_alpha (r : Except PyErr (EngineState × Vec)) (fallback : ℚ) : ℚ :=
  match r with
  | .error _ => fallback
  | .ok pr => pr.1.ctx.alpha

/-- The token store after a loop, or the fallback on error. -/
def result_store (r : Except PyErr (EngineState × Vec)) (fallback : Store) :
    Store :=
  match r with
  | .error _ => fallback
  | .ok pr => pr.1.store

/-- Token constructor for the example world. -/
def ex_tok (n : String) (v vp : Vec) : VectorizedToken := ⟨n, 1, v, vp⟩

/-- A concrete four-token vocabulary: opcode/operand vectors of length 1,
predictive vectors of length 2. -/
def ex_store : Store := fun n =>
  if n = "a" then ex_tok "a" [1] [0, 0]
  else if n = "b" then ex_tok "b" [3] [1, 0]
  else if n = "c" then ex_tok "c" [1] [0, 1]
  else ex_tok "d" [1] [2, 0]

/-- A concrete window view: previous instruction `a b`, current `c d`,
next `c d`. -/
def ex_view : WindowView := ⟨"a", ["b"], "c", ["d"], "c", ["d"]⟩

/-- The source's default hyperparameters. -/
def default_params : Asm2VecParams := {}

/-- A concrete stand-in for `_sigmoid` usable in closed evaluations; the
real sigmoid also takes the value `1/2` at 0, the only point where the
concrete theorems evaluate it. -/
def sig_half : ℚ → ℚ := fun _ => 1 / 2

/-- A concrete engine state as `train` would build it: the example store,
the full-training context (counter registered at 0), and a two-draw sampler
oracle. -/
def ex_engine_state : EngineState :=
  ⟨ex_store, train_ctx default_params, [["a"], ["b"]]⟩

/-- Current token with zero predictive vector (for claim C3). -/
def ex_tk3 : VectorizedToken := ex_tok "a" [1] [0, 0]

/-- A second target with a nonzero predictive vector (for claim C3). -/
def ex_t3 : VectorizedToken := ex_tok "b" [3] [1, 0]

/-- A token orthogonal to the delta `[2, 2]` (for claim C4). -/
def ex_tk4 : VectorizedToken := ex_tok "a" [1] [1, -1]

/-- The accumulated gradient used by the claim C5 evaluation. -/
def ex_fgrad : Vec := [1, 1]

/-- A single-sequence function whose only sequence has three instructions
(for claim C6). -/
def ex_func6 : VectorizedFunction :=
  ⟨[2, 2], [[⟨"a", ["b"]⟩, ⟨"c", ["d"]⟩, ⟨"c", ["d"]⟩]]⟩

/-- The cursor positions visited by a window drained from position `i`, with
enough fuel, are exactly `i, i+1, …, seq.length - 2` in increasing order. -/
theorem window_views_fuel_fst (seq : List Instruction) :
    ∀ fuel i, seq.length - 1 - i ≤ fuel →
      (window_views_fuel seq i fuel).map Prod.fst =
        List.range' i (seq.length - 1 - i) := by
  intro fuel
  induction fuel with
  | zero =>
    intro i h
    have h0 : seq.length - 1 - i = 0 := Nat.le_zero.mp h
    rw [window_views_fuel, h0]
    rfl
  | succ fuel ih =>
    intro i h
    rw [window_views_fuel]
    by_cases hc : i + 1 < seq.length
    · rw [if_pos hc]
      have hlen : seq.length - 1 - i = (seq.length - 1 - (i + 1)) + 1 := by
        omega
      rw [List.map_cons, ih (i + 1) (by omega), hlen, List.range'_succ]
    · rw [if_neg hc]
      have h0 : seq.length - 1 - i = 0 := by omega
      rw [h0]
      rfl

/-- Positions visited by the window from the initial cursor 1. -/
theorem window_views_fst (seq : List Instruction) :
    (window_views seq 1).map Prod.fst =
      List.range' 1 (seq.length - 2) := by
  have h := window_views_fuel_fst seq seq.length 1 (by omega)
  have h2 : seq.length - 1 - 1 = seq.length - 2 := by omega
  rw [window_views, h, h2]

/-- Claim C7: a `SequenceWindow` over a sequence of length `< 3` produces
zero iterations, and over a sequence of length `n ≥ 3` it produces exactly
`n - 2` context tuples, the cursor visiting positions `1, …, n-2` exactly
once each in increasing order; in both cases the drain terminates by the
`StopIteration` branch of `__next__`, not an error. -/
theorem claim_C7 (seq : List Instruction) :
    (seq.length < 3 → window_views seq 1 = []) ∧
    (3 ≤ seq.length →
      (window_views seq 1).length = seq.length - 2 ∧
      (window_views seq 1).map Prod.fst = List.range' 1 (seq.length - 2)) := by
  constructor
  · intro hshort
    have h := window_views_fst seq
    have h2 : seq.length - 2 = 0 := by omega
    rw [h2] at h
    have hlen : ((window_views seq 1).map Prod.fst).length = 0 := by
      rw [h]; rfl
    rw [List.length_map] at hlen
    exact List.eq_nil_of_length_eq_zero hlen
  · intro _
    refine ⟨?_, window_views_fst seq⟩
    have h := window_views_fst seq
    have : ((window_views seq 1).map Prod.fst).length =
        (List.range' 1 (seq.length - 2)).length := by rw [h]
    rw [List.length_map, List.length_range'] at this
    exact this

/-- Witness for claim C7 at a concrete 4-instruction sequence: two windows,
cursor positions `[1, 2]`. -/
theorem claim_C7_witness :
    3 ≤ ([⟨"a", []⟩, ⟨"b", []⟩, ⟨"c", []⟩, ⟨"d", []⟩] :
        List Instruction).length ∧
    (window_views [⟨"a", []⟩, ⟨"b", []⟩, ⟨"c", []⟩, ⟨"d", []⟩] 1).length = 2 ∧
    (window_views [⟨"a", []⟩, ⟨"b", []⟩, ⟨"c", []⟩, ⟨"d", []⟩] 1).map
        Prod.fst = List.range' 1 2 :=
  ⟨by decide,
   (claim_C7 [⟨"a", []⟩, ⟨"b", []⟩, ⟨"c", []⟩, ⟨"d", []⟩]).2 (by decide)⟩

/-- The gradient-step iteration never touches the counter dictionary: only
the learning rate can change. -/
theorem token_step_core_counters (p : Asm2VecParams) (num_tokens : ℕ)
    (sig : ℚ → ℚ) (delta : Vec) (n : String) (s : EngineState)
    (cnt : Counter) (g : Vec) :
    (token_step_core p num_tokens sig delta n s cnt g).1.ctx.counters =
      s.ctx.counters := by
  simp only [token_step_core]
  split <;> split <;> rfl

/-- The whole `for tk in tokens` loop leaves the counter dictionary exactly
as it found it (on an error the fallback is returned): no code path
increments any counter. -/
theorem tokens_loop_counters (p : Asm2VecParams) (num_tokens : ℕ)
    (sig : ℚ → ℚ) (delta : Vec) :
    ∀ (names : List String) (s : EngineState) (g : Vec),
      result_counters (tokens_loop p num_tokens sig delta names s g)
        s.ctx.counters = s.ctx.counters := by
  intro names
  induction names with
  | nil => intro s g; rfl
  | cons n ns ih =>
    intro s g
    rw [tokens_loop]
    cases hc : get_counter s.ctx TOKENS_HANDLED_COUNTER with
    | none => simp [token_step, hc, result_counters]
    | some cnt =>
      simp only [token_step, hc]
      have hctr := token_step_core_counters p num_tokens sig delta n s cnt g
      rw [← hctr]
      exact ih _ _

/-- Claim C1: the claim says the context delta is the elementwise average of
the previous instruction representation, `f.v` and the next instruction
representation, each representation being opcode-vector concatenated with
the operand mean.  The code instead raises `TypeError` at every window: the
first conjunct evaluates the source's delta computation (`_get_inst_repr`
at `training.py:165` calls `np.hstack` with two positional arguments) on a
concrete window, and the second shows the claimed delta is a well-defined
vector there (`[4/3, 2]`), so the divergence is the code's, not a gap in the
claim. -/
theorem claim_C1 :
    compute_delta ex_view ex_store = Except.error PyErr.typeError ∧
    spec_context_delta ex_view ex_store [2, 2] = [4 / 3, 2] := by
  constructor
  · rfl
  · simp [spec_context_delta, spec_inst_repr, np_average_axis0, ex_view,
      ex_store, ex_tok, smul, vadd]
    norm_num

/-- Claim C2: the claim says the tokens-handled counter is incremented once
per processed token.  The code never calls `Counter.inc`: the first conjunct
shows the token loop returns the counter dictionary unchanged for EVERY
input, and the second runs a concrete two-token gradient step in a
`train`-built context and finds the counter still at 0 (the claim requires
2). -/
theorem claim_C2 (p : Asm2VecParams) (num_tokens : ℕ) (sig : ℚ → ℚ)
    (delta : Vec) (names : List String) (s : EngineState) (g : Vec) :
    result_counters (tokens_loop p num_tokens sig delta names s g)
      s.ctx.counters = s.ctx.counters ∧
    result_counters (tokens_loop default_params 10 sig_half [0, 0]
        ["c", "d"] ex_engine_state [0, 0]) [] =
      [(TOKENS_HANDLED_COUNTER, ⟨TOKENS_HANDLED_COUNTER, 0⟩)] :=
  ⟨tokens_loop_counters p num_tokens sig delta names s g, rfl⟩

/-- Claim C3: the claim says the function-vector gradient is
`Σ_t (label(t) - sigmoid(dot(t.v_pred, delta))) · t.v_pred`.  The code
(`_get_function_grad`) instead sums the scalars
`label(t) - sigmoid(dot(tk.v_pred, delta))` — scoring every target against
the CURRENT token's predictive vector — and multiplies `tk.v_pred` by a
third of that sum.  At a current token with zero predictive vector and a
second target with a nonzero one, the code yields the zero vector while the
claimed formula cannot (its first entry is `-sig 0 ≠ 0`), for any sigmoid
with `0 < sig 0` — true of the real sigmoid, `sig 0 = 1/2`. -/
theorem claim_C3 (sig : ℚ → ℚ) (h : 0 < sig 0) :
    get_function_grad sig [ex_tk3, ex_t3] ex_tk3 [0, 5] ≠
      spec_function_grad sig [ex_tk3, ex_t3] ex_tk3 [0, 5] := by
  intro heq
  have h0 := congrArg (fun l => l.headD 0) heq
  simp [get_function_grad, spec_function_grad, ex_tk3, ex_t3, ex_tok,
    dot_sigmoid, dot, identity_ind, smul, vadd, zero_vec] at h0
  linarith

/-- Witness for claim C3, instantiating the sigmoid with the constant `1/2`
(the real sigmoid's value at 0, the only point where it is evaluated). -/
theorem claim_C3_witness :
    (0 : ℚ) < sig_half 0 ∧
    get_function_grad sig_half [ex_tk3, ex_t3] ex_tk3 [0, 5] ≠
      spec_function_grad sig_half [ex_tk3, ex_t3] ex_tk3 [0, 5] :=
  ⟨by norm_num [sig_half], claim_C3 sig_half (by norm_num [sig_half])⟩

/-- Claim C4: the claim says the target update subtracts
`alpha · (label(t) - sigmoid(dot(t.v_pred, delta))) · delta`.  By Python
precedence the code (`_get_target_grad`) computes
`label(t) - (sigmoid(...) · delta)`: the scalar label broadcast-minus the
scaled vector.  At `label = 1` and `delta = [2, 2]` the two formulas' first
entries are `1 - 2s` and `2 - 2s`, different for EVERY sigmoid value `s`. -/
theorem claim_C4 (sig : ℚ → ℚ) :
    get_target_grad sig ex_tk4 ex_tk4 [2, 2] ≠
      spec_target_grad sig ex_tk4 ex_tk4 [2, 2] := by
  intro heq
  have h0 := congrArg (fun l => l.headD 0) heq
  simp [get_target_grad, spec_target_grad, ex_tk4, ex_tok, dot_sigmoid, dot,
    identity_ind, smul, scalar_sub_vec] at h0
  linarith

/-- Claim C5: the claim says the opcode-sized gradient portion is subtracted
from the previous AND next opcode vectors with the SAME scaling factor (the
current learning rate).  Evaluating `training.py:212-224` with current rate
1 and `initial_alpha = 1/20` on tokens that all start at the same values:
the previous opcode `a` loses the full portion (`[1] ↦ [0]`), the next
opcode `c` loses only an `initial_alpha`-scaled portion (`[1] ↦ [19/20]`) —
line 221 uses `params().initial_alpha` where line 216 uses `alpha()` — while
the operand updates (`b`, `d`) are indeed symmetric. -/
theorem claim_C5 :
    ((apply_inst_grad 1 (1 / 20) ex_fgrad ex_view ex_store) "a").v = [0] ∧
    ((apply_inst_grad 1 (1 / 20) ex_fgrad ex_view ex_store) "b").v = [2] ∧
    ((apply_inst_grad 1 (1 / 20) ex_fgrad ex_view ex_store) "c").v =
      [19 / 20] ∧
    ((apply_inst_grad 1 (1 / 20) ex_fgrad ex_view ex_store) "d").v = [0] ∧
    ((apply_inst_grad 1 (1 / 20) ex_fgrad ex_view ex_store) "c").v ≠
      ((apply_inst_grad 1 (1 / 20) ex_fgrad ex_view ex_store) "a").v := by
  refine ⟨?_, ?_, ?_, ?_, ?_⟩ <;>
    (simp [apply_inst_grad, ex_fgrad, ex_view, ex_store, ex_tok,
      store_update, smul, vsub, vadd]) <;> norm_num

/-- Claim C6: the claim says `estimate` returns the function's final vector,
updating `f.v` at every window while leaving all token vectors untouched.
The second conjunct confirms the frame half on the gradient-step fragment:
in an estimation-mode context the step returns the token store exactly as it
found it.  But the first conjunct shows the full call: on a function with
one 3-instruction sequence `estimate` raises `TypeError` at the first
window's delta computation (`np.hstack` arity, cf. claim C1 — and had delta
been computable, the unregistered counter would raise `AttributeError`,
cf. claim C10), so no vector is returned and `f.v` is never updated. -/
theorem claim_C6 :
    estimate ex_func6 10 default_params sig_half [] ex_store =
      Except.error PyErr.typeError ∧
    ∀ (p : Asm2VecParams) (num_tokens : ℕ) (sig : ℚ → ℚ) (delta : Vec)
      (n : String) (alpha : ℚ) (counters : List (String × Counter))
      (st : Store) (oracle : Oracle) (g : Vec),
      result_store
        (token_step p num_tokens sig delta n
          ⟨st, ⟨alpha, counters, true⟩, oracle⟩ g) st = st := by
  refine ⟨rfl, ?_⟩
  intro p num_tokens sig delta n alpha counters st oracle g
  unfold token_step
  cases hc : get_counter ⟨alpha, counters, true⟩ TOKENS_HANDLED_COUNTER with
  | none => rfl
  | some cnt =>
    simp only [result_store, token_step_core]
    split <;> rfl

/-- Claim C8: when the counter's value is a multiple of
`alpha_update_interval`, the gradient step stores exactly
`max(1 - counter/(iteration·num_tokens + 1), initial_alpha·10⁻⁴)` as the
learning rate (first conjunct); the recomputed rate is antitone in the
counter value — and counter values never decrease, cf. claim C2 — so the
rates taken at recomputation points are non-increasing (second conjunct)
and always bounded below by `initial_alpha · 10⁻⁴` (third conjunct). -/
theorem claim_C8 (p : Asm2VecParams) (num_tokens : ℕ) (sig : ℚ → ℚ)
    (delta : Vec) (n : String) (s : EngineState) (g : Vec) (cnt : Counter)
    (hcnt : get_counter s.ctx TOKENS_HANDLED_COUNTER = some cnt)
    (hmod : cnt.val % p.alpha_update_interval = 0) :
    result_alpha (token_step p num_tokens sig delta n s g) 0 =
      recomputed_alpha p num_tokens cnt.val ∧
    (∀ c₁ c₂ : ℕ, c₁ ≤ c₂ →
      recomputed_alpha p num_tokens c₂ ≤ recomputed_alpha p num_tokens c₁) ∧
    ∀ c : ℕ, p.initial_alpha * (1 / 10000) ≤
      recomputed_alpha p num_tokens c := by
  refine ⟨?_, ?_, ?_⟩
  · unfold token_step
    rw [hcnt]
    simp only [result_alpha, token_step_core, if_pos hmod]
    split <;> rfl
  · intro c₁ c₂ hle
    unfold recomputed_alpha
    refine max_le_max ?_ le_rfl
    have hc : (c₁ : ℚ) ≤ (c₂ : ℚ) := by exact_mod_cast hle
    gcongr
  · intro c
    exact le_max_right _ _

/-- Witness for claim C8: a `train`-built context with the counter at 0 and
the default interval (0 is a multiple of 10000); the step stores
`recomputed_alpha` of 0, which is `max(1, 1/200000) = 1`. -/
theorem claim_C8_witness :
    get_counter ex_engine_state.ctx TOKENS_HANDLED_COUNTER =
      some ⟨TOKENS_HANDLED_COUNTER, 0⟩ ∧
    (⟨TOKENS_HANDLED_COUNTER, 0⟩ : Counter).val %
      default_params.alpha_update_interval = 0 ∧
    (result_alpha (token_step default_params 10 sig_half [0, 0] "c"
          ex_engine_state [0, 0]) 0 =
        recomputed_alpha default_params 10
          (⟨TOKENS_HANDLED_COUNTER, 0⟩ : Counter).val ∧
      (∀ c₁ c₂ : ℕ, c₁ ≤ c₂ →
        recomputed_alpha default_params 10 c₂ ≤
          recomputed_alpha default_params 10 c₁) ∧
      ∀ c : ℕ, default_params.initial_alpha * (1 / 10000) ≤
        recomputed_alpha default_params 10 c) :=
  ⟨rfl, rfl,
   claim_C8 default_params 10 sig_half [0, 0] "c" ex_engine_state [0, 0]
     ⟨TOKENS_HANDLED_COUNTER, 0⟩ rfl rfl⟩

/-- Claim C10: `train` registers the tokens-handled counter (at 0) on its
context while `estimate` builds its estimation-mode context without
registering any counter; `get_counter` on the unregistered name returns
`none` (Python `None`), so the gradient step's counter lookup yields no
counter object and the learning-rate check fails with `AttributeError`
(`None.val()`) instead of reading a value — for every token, store, oracle
and delta handed to the step. -/
theorem claim_C10 (p : Asm2VecParams) :
    get_counter (train_ctx p) TOKENS_HANDLED_COUNTER =
      some ⟨TOKENS_HANDLED_COUNTER, 0⟩ ∧
    get_counter (estimate_ctx p) TOKENS_HANDLED_COUNTER = none ∧
    (estimate_ctx p).is_estimating = true ∧
    ∀ (num_tokens : ℕ) (sig : ℚ → ℚ) (delta : Vec) (n : String) (st : Store)
      (oracle : Oracle) (g : Vec),
      token_step p num_tokens sig delta n ⟨st, estimate_ctx p, oracle⟩ g =
        Except.error PyErr.attributeError :=
  ⟨rfl, rfl, rfl, fun _ _ _ _ _ _ _ => rfl⟩

end Asm2Vec
